import Mathlib

/-!
Shallow embedding of the personnel-attendance bot (src/database.py, src/admin.py,
src/handlers.py, src/utils.py, src/keyboards.py).

The SQLite tables become lists of records; each `Database.*` method becomes a pure
function threading the `DB` state and returning the Python method's result.
Timestamps and the notification subsystem (fire-and-forget, no DB effect) are not
modelled; neither is the `notification_settings` table, which no claim touches.
-/

namespace Bot336

/-- A row of the `users` table (database.py `_create_tables`).
`rowid` is the `id INTEGER PRIMARY KEY`; defaults: `status = 'в_части'`,
`is_admin = FALSE`. -/
structure UserRow where
  rowid : Nat
  telegram_id : Int
  name : String
  location : Option String
  status : String
  username : Option String
  is_admin : Bool
deriving Repr, DecidableEq

/-- A row of the `events` table: `user_id` nullable, `action`, `details`. -/
structure EventRow where
  user_id : Option Nat
  action : String
  details : Option String
deriving Repr, DecidableEq

/-- A row of the `attendance` table, `UNIQUE(user_id, date)`. -/
structure AttRow where
  user_id : Nat
  date : Nat
  location : Option String
deriving Repr, DecidableEq

/-- A row of `commander_permissions` with the eight capability columns and their
SQL defaults. -/
structure PermRow where
  user_id : Nat
  can_view_personnel : Bool
  can_manage_personnel : Bool
  can_export_data : Bool
  can_view_journal : Bool
  can_clear_journal : Bool
  can_manage_notifications : Bool
  can_view_stats : Bool
  can_force_operations : Bool
deriving Repr, DecidableEq

/-- The SQL column defaults of `commander_permissions` for a given user_id. -/
def PermRow.mkDefault (uid : Nat) : PermRow :=
  ⟨uid, true, false, false, true, false, false, true, false⟩

/-- The whole SQLite database.  `nextId` models the next fresh rowid for the
`users` table; `today` models `date.today()` for the attendance table. -/
structure DB where
  users : List UserRow
  events : List EventRow
  attendance : List AttRow
  permissions : List PermRow
  nextId : Nat
  today : Nat
deriving Repr, DecidableEq

/-! ## Validators and Python string helpers (src/utils.py, src/handlers.py) -/

/-- Upper-case Cyrillic letter of the regex class `[А-ЯЁ]`
(U+0410–U+042F plus Ё = U+0401). -/
def isRuUpper (c : Char) : Bool :=
  (0x410 ≤ c.toNat && c.toNat ≤ 0x42F) || c.toNat == 0x401

/-- Lower-case Cyrillic letter of the regex class `[а-яё]`
(U+0430–U+044F plus ё = U+0451). -/
def isRuLower (c : Char) : Bool :=
  (0x430 ≤ c.toNat && c.toNat ≤ 0x44F) || c.toNat == 0x451

/-- Python's `\s` class for `str` patterns (the whitespace set of `str.strip`
as well). -/
def isPySpace (c : Char) : Bool :=
  let n := c.toNat
  (0x09 ≤ n && n ≤ 0x0D) || (0x1C ≤ n && n ≤ 0x1F) || n == 0x20 ||
  n == 0x85 || n == 0xA0 || n == 0x1680 || (0x2000 ≤ n && n ≤ 0x200A) ||
  n == 0x2028 || n == 0x2029 || n == 0x202F || n == 0x205F || n == 0x3000

/-- Python `str.strip()` on the whitespace set. -/
def pyStrip (s : String) : String :=
  ⟨((s.toList.dropWhile isPySpace).reverse.dropWhile isPySpace).reverse⟩

/-- Python `str.lower()` restricted to ASCII and Cyrillic (the only scripts the
program compares after lowering). -/
def pyLowerChar (c : Char) : Char :=
  let n := c.toNat
  if (65 ≤ n && n ≤ 90) || (0x410 ≤ n && n ≤ 0x42F) then Char.ofNat (n + 0x20)
  else if n == 0x401 then Char.ofNat 0x451
  else c

/-- Python `str.lower()` (see `pyLowerChar`). -/
def pyLower (s : String) : String := ⟨s.toList.map pyLowerChar⟩

/-- `needle` occurs contiguously inside the list (empty needle matches). -/
def listInfixAt (needle : List Char) : List Char → Bool
  | [] => needle.isEmpty
  | c :: t => needle.isPrefixOf (c :: t) || listInfixAt needle t

/-- Python `needle in haystack` for strings. -/
def pyIn (needle haystack : String) : Bool :=
  listInfixAt needle.toList haystack.toList

/-- The tail of `validate_full_name`'s regex: `[А-ЯЁ]\.[А-ЯЁ]\.$`. -/
def matchInitials : List Char → Bool
  | [a, d1, b, d2] => isRuUpper a && d1 == '.' && isRuUpper b && d2 == '.'
  | _ => false

/-- `re.match(r'^[А-ЯЁ][а-яё]+\s+[А-ЯЁ]\.[А-ЯЁ]\.$', ...)` on a character list.
The greedy `+` scans are exact because the three character classes are
pairwise disjoint. -/
def matchFullName : List Char → Bool
  | [] => false
  | c :: rest =>
    if isRuUpper c then
      let rest1 := rest.dropWhile isRuLower
      if rest1.length == rest.length then false
      else
        let rest2 := rest1.dropWhile isPySpace
        if rest2.length == rest1.length then false
        else matchInitials rest2
    else false

/-- `utils.validate_full_name`: strip, then match `^[А-ЯЁ][а-яё]+\s+[А-ЯЁ]\.[А-ЯЁ]\.$`. -/
def validate_full_name (full_name : String) : Bool :=
  if full_name == "" then false
  else matchFullName (pyStrip full_name).toList

/-- One character of the custom-location regex class `[А-Яа-яёЁ\s\-]`
(handlers.py `handle_custom_location_input`). -/
def isLocChar (c : Char) : Bool :=
  isRuUpper c || isRuLower c || isPySpace c || c == '-'

/-- Accumulator form of `str.split(sep)` for a one-character separator. -/
def splitCharAux (sep : Char) : List Char → List Char → List String
  | [], acc => [⟨acc.reverse⟩]
  | c :: rest, acc =>
    if c == sep then ⟨acc.reverse⟩ :: splitCharAux sep rest []
    else splitCharAux sep rest (c :: acc)

/-- Python `s.split(sep)` for a one-character separator (no limit). -/
def splitChar (sep : Char) (s : String) : List String :=
  splitCharAux sep s.toList []

/-- Rejoin on `":"` — together with `splitChar ':'` this reproduces Python's
`split(":", 1)` via head and joined tail. -/
def joinColon : List String → String
  | [] => ""
  | [s] => s
  | s :: rest => s ++ ":" ++ joinColon rest

/-- Python `s.startswith(pre)`. -/
def pyStartsWith (s pre : String) : Bool :=
  pre.toList.isPrefixOf s.toList

/-- Value of a non-empty all-decimal-digit character list. -/
def digitsVal? (ds : List Char) : Option Nat :=
  if ds.isEmpty then none
  else if ds.all (fun c => c.isDigit) then
    some (ds.foldl (fun n c => n * 10 + (c.toNat - 48)) 0)
  else none

/-- Python `int(s)` for the page suffix: `None` on anything that is not an
optionally signed decimal numeral (surrounding whitespace allowed). -/
def pyInt? (s : String) : Option Int :=
  match (pyStrip s).toList with
  | '-' :: ds => (digitsVal? ds).map (fun n => -(n : Int))
  | '+' :: ds => (digitsVal? ds).map (fun n => (n : Int))
  | ds => (digitsVal? ds).map (fun n => (n : Int))

/-- Python list slicing `xs[a:b]`: negative indices count from the end, and
both bounds clamp to the list. -/
def pySliceIndex (len : Nat) (i : Int) : Nat :=
  if i < 0 then (Int.ofNat len + i).toNat else min i.toNat len

/-- Python `xs[a:b]` (step 1). -/
def pySlice {α : Type} (xs : List α) (a b : Int) : List α :=
  let lo := pySliceIndex xs.length a
  let hi := pySliceIndex xs.length b
  (xs.drop lo).take (hi - lo)

namespace Database

/-- `Database.get_user`: `SELECT * FROM users WHERE telegram_id = ?` (first row). -/
def get_user (db : DB) (telegram_id : Int) : Option UserRow :=
  db.users.find? (fun u => u.telegram_id == telegram_id)

/-- `Database.log_event`: `INSERT INTO events (user_id, action, details)`. -/
def log_event (db : DB) (user_id : Option Nat) (action : String)
    (details : Option String) : DB :=
  { db with events := db.events ++ [⟨user_id, action, details⟩] }

/-- `Database.add_user`: `INSERT OR REPLACE INTO users (telegram_id, name,
location, username)`.  On a `telegram_id` conflict SQLite REPLACE deletes the
old row and inserts a fresh one, so `status` falls back to its column default
`'в_части'` and `is_admin` to FALSE; then the `user_added` event is logged with
the fresh rowid.  Always returns `True` (the except-branch is unreachable in
the model). -/
def add_user (db : DB) (telegram_id : Int) (name : String)
    (location : Option String) (username : Option String) : DB × Bool :=
  let newRow : UserRow :=
    ⟨db.nextId, telegram_id, name, location, "в_части", username, false⟩
  let db1 : DB := { db with
    users := db.users.filter (fun u => u.telegram_id != telegram_id) ++ [newRow],
    nextId := db.nextId + 1 }
  let db2 := log_event db1 (some db.nextId) "user_added"
    (some ("Добавлен пользователь: " ++ name))
  (db2, true)

/-- The `status`/`location`/`name` projection returned by
`Database.get_soldier_status`. -/
structure SoldierStatus where
  name : String
  status : String
  location : Option String
deriving Repr, DecidableEq

/-- `Database.set_soldier_status`: UPDATE of `status` and `location` for the
user, then one event logged with action = the new status and details
`"Локация: ..."` when the location is truthy (non-None, non-empty). -/
def set_soldier_status (db : DB) (telegram_id : Int) (status : String)
    (location : Option String) : DB × Bool :=
  match get_user db telegram_id with
  | none => (db, false)
  | some user =>
    let db1 : DB := { db with
      users := db.users.map (fun u =>
        if u.telegram_id == telegram_id then
          { u with status := status, location := location }
        else u) }
    let details : Option String :=
      match location with
      | some loc => if loc == "" then none else some ("Локация: " ++ loc)
      | none => none
    (log_event db1 (some user.rowid) status details, true)

/-- `Database.get_soldier_status`: projection of the user row. -/
def get_soldier_status (db : DB) (telegram_id : Int) : Option SoldierStatus :=
  (get_user db telegram_id).map (fun u => ⟨u.name, u.status, u.location⟩)

/-- `Database.mark_soldier_arrival` ≡ `set_soldier_status(tid, 'в_части', None)`. -/
def mark_soldier_arrival (db : DB) (telegram_id : Int) : DB × Bool :=
  set_soldier_status db telegram_id "в_части" none

/-- `Database.mark_soldier_departure` ≡ `set_soldier_status(tid, 'вне_части', location)`. -/
def mark_soldier_departure (db : DB) (telegram_id : Int) (location : String) :
    DB × Bool :=
  set_soldier_status db telegram_id "вне_части" (some location)

/-- `Database.mark_attendance`: `INSERT OR REPLACE INTO attendance (user_id,
date, location)` for today, then the `attendance_marked` event. -/
def mark_attendance (db : DB) (telegram_id : Int) (location : Option String) :
    DB × Bool :=
  match get_user db telegram_id with
  | none => (db, false)
  | some user =>
    let db1 : DB := { db with
      attendance := db.attendance.filter
          (fun a => !(a.user_id == user.rowid && a.date == db.today))
        ++ [⟨user.rowid, db.today, location⟩] }
    let detail :=
      match location with
      | some loc => if loc == "" then "не указано" else loc
      | none => "не указано"
    (log_event db1 (some user.rowid) "attendance_marked"
      (some ("Отметка: " ++ detail)), true)

/-- The eight capability columns of `commander_permissions`. -/
def permColumns : List String :=
  ["can_view_personnel", "can_manage_personnel", "can_export_data",
   "can_view_journal", "can_clear_journal", "can_manage_notifications",
   "can_view_stats", "can_force_operations"]

/-- Assignment of one recognized capability column of a `commander_permissions`
row (the generated `SET can_... = ?` item). -/
def PermRow.setFlag (p : PermRow) (key : String) (v : Bool) : PermRow :=
  if key == "can_view_personnel" then { p with can_view_personnel := v }
  else if key == "can_manage_personnel" then { p with can_manage_personnel := v }
  else if key == "can_export_data" then { p with can_export_data := v }
  else if key == "can_view_journal" then { p with can_view_journal := v }
  else if key == "can_clear_journal" then { p with can_clear_journal := v }
  else if key == "can_manage_notifications" then { p with can_manage_notifications := v }
  else if key == "can_view_stats" then { p with can_view_stats := v }
  else if key == "can_force_operations" then { p with can_force_operations := v }
  else p

/-- `Database.create_default_commander_permissions`: `INSERT OR IGNORE INTO
commander_permissions (user_id) VALUES (?)` — all columns at their defaults. -/
def create_default_commander_permissions (db : DB) (user_id : Nat) : DB :=
  if db.permissions.any (fun p => p.user_id == user_id) then db
  else { db with permissions := db.permissions ++ [PermRow.mkDefault user_id] }

/-- `Database.update_commander_permissions`.  The Python code filters the input
dict down to keys with the `can_` prefix and splices them into the SQL `SET`
clause.  If every such key is a real column the UPDATE succeeds, one
`permissions_updated` event is logged and the method returns True.  If some
`can_`-prefixed key is not a column, SQLite rejects the statement, the
exception is caught and the method returns False with nothing applied and no
event (the lazy permission-row creation was committed separately and
persists).  If no key has the prefix the method falls through and returns
None (falsy, modelled as `false`) with no event. -/
def update_commander_permissions (db : DB) (telegram_id : Int)
    (permissions : List (String × Bool)) : DB × Bool :=
  match get_user db telegram_id with
  | none => (db, false)
  | some user =>
    let db1 := create_default_commander_permissions db user.rowid
    let update_fields := permissions.filter (fun kv => pyStartsWith kv.fst "can_")
    if update_fields.isEmpty then (db1, false)
    else if update_fields.all (fun kv => permColumns.contains kv.fst) then
      let db2 : DB := { db1 with
        permissions := db1.permissions.map (fun p =>
          if p.user_id == user.rowid then
            update_fields.foldl (fun q kv => PermRow.setFlag q kv.fst kv.snd) p
          else p) }
      (log_event db2 (some user.rowid) "permissions_updated"
        (some "Обновлены права доступа"), true)
    else (db1, false)

end Database

/-! ## AdminPanel (src/admin.py) -/

namespace AdminPanel

/-- `AdminPanel.is_admin`: membership in `Config.ADMIN_IDS`. -/
def is_admin (adminIds : List Int) (user_id : Int) : Bool :=
  adminIds.contains user_id

/-- `AdminPanel.clear_events`: logs one `journal_cleared` event and returns 1;
no row of any table is deleted ("В простой версии просто логируем"). -/
def clear_events (db : DB) (period : String) : DB × Nat :=
  (Database.log_event db none "journal_cleared"
    (some ("Очищен журнал за период: " ++ period)), 1)

/-- `AdminPanel.clear_all_data`: logs one `clear_all_data` event (plus a
fire-and-forget emergency notification with no DB effect) and returns True;
no table is cleared. -/
def clear_all_data (db : DB) : DB × Bool :=
  (Database.log_event db none "clear_all_data" (some "Очищены все данные"), true)

/-- `AdminPanel.reset_settings`: logs one `reset_settings` event, returns True. -/
def reset_settings (db : DB) : DB × Bool :=
  (Database.log_event db none "reset_settings" (some "Сброшены все настройки"), true)

/-- `AdminPanel.mark_all_arrived`: `mark_attendance` for every user (counting
successes), then one `mark_all_arrived` event.  The source iterates the
`get_all_users()` snapshot ordered by name; the ordering only permutes the
per-user events and is not modelled. -/
def mark_all_arrived (db : DB) (location : String) : DB × Nat :=
  let step := fun (acc : DB × Nat) (u : UserRow) =>
    let r := Database.mark_attendance acc.1 u.telegram_id (some location)
    (r.1, acc.2 + (if r.2 then 1 else 0))
  let folded := db.users.foldl step (db, 0)
  (Database.log_event folded.1 none "mark_all_arrived"
    (some ("Все отмечены прибывшими в " ++ location)), folded.2)

/-- `AdminPanel.get_users_list`: all non-admin users, pages of `per_page`;
`total_pages = (n + per_page - 1) // per_page` with minimum 1 on an empty
list; the requested page is sliced Python-style without any range check. -/
def get_users_list (db : DB) (page : Int) (per_page : Nat) :
    List UserRow × Int × Nat :=
  let soldiers := db.users.filter (fun u => !u.is_admin)
  let total_users := soldiers.length
  let total_pages := if total_users > 0 then (total_users + per_page - 1) / per_page else 1
  let start_idx : Int := (page - 1) * (per_page : Int)
  let end_idx : Int := start_idx + (per_page : Int)
  (pySlice soldiers start_idx end_idx, page, total_pages)

/-- The response payload of `AdminPanel.handle_callback`.  Branches that only
render a static menu or read-only report are collapsed to `menu`; the branch
identity and the data relevant to the claims are kept. -/
inductive AdminResp where
  /-- "❌ У вас нет доступа к админ-панели" + back keyboard. -/
  | denial
  /-- The personnel listing with its pagination keyboard. -/
  | usersList (users : List UserRow) (page : Int) (total_pages : Nat)
  /-- A read-only menu/report branch (dashboard, journal, settings,
  notifications, admins, permissions, danger_zone, monitoring,
  journal_filter). -/
  | menu (action : String)
  /-- The `maintenance`/`maintenance_confirm` report text. -/
  | maintenance (subaction : String)
  /-- "✅ Все бойцы отмечены прибывшими" with the count. -/
  | allArrived (count : Nat)
  /-- "❌ Неизвестное действие". -/
  | unknownAction
deriving Repr, DecidableEq

/-- `AdminPanel.perform_maintenance`: builds a report and logs one
`maintenance` event. -/
def perform_maintenance (db : DB) (maintenance_type : String) : DB :=
  Database.log_event db none "maintenance" (some ("ТО: " ++ maintenance_type))

/-- `AdminPanel.handle_callback`.  Parses `callback_data` on the FIRST colon
only (`split(":", 1)`); checks `is_admin` before any branch and answers the
fixed denial otherwise.  Branches: the personnel listing/pagination is exact;
`confirm:mark_all_arrived` and the maintenance operations (the only mutating
branches) log their events; every other branch of the source is read-only and
collapsed to `menu action`. -/
def handle_callback (adminIds : List Int) (db : DB) (callback_data : String)
    (user_id : Int) : AdminResp × DB :=
  let parts := splitChar ':' callback_data
  let action := parts.headD callback_data
  let subaction := joinColon parts.tail
  if !is_admin adminIds user_id then (.denial, db)
  else if action == "dashboard" then (.menu "dashboard", db)
  else if action == "personnel" then
    if subaction == "list_users" then
      let r := get_users_list db 1 8
      (.usersList r.1 r.2.1 r.2.2, db)
    else if pyStartsWith subaction "list_users_" then
      match pyInt? ((splitChar '_' subaction).getLastD "") with
      | some n =>
        let r := get_users_list db n 8
        (.usersList r.1 r.2.1 r.2.2, db)
      | none =>
        let r := get_users_list db 1 8
        (.usersList r.1 r.2.1 r.2.2, db)
    else (.menu "personnel", db)
  else if action == "journal" || action == "journal_filter" ||
          action == "settings" || action == "notifications" ||
          action == "admins" || action == "permissions" ||
          action == "danger_zone" || action == "monitoring" then
    (.menu action, db)
  else if action == "maintenance" then
    if subaction == "scheduled" || subaction == "emergency" ||
       subaction == "update" || subaction == "cleanup" then
      (.maintenance subaction, perform_maintenance db subaction)
    else (.menu "maintenance", db)
  else if action == "maintenance_confirm" then
    (.maintenance subaction, perform_maintenance db subaction)
  else if action == "confirm" then
    if subaction == "mark_all_arrived" then
      let r := mark_all_arrived db "основная локация"
      (.allArrived r.2, r.1)
    else (.unknownAction, db)
  else (.unknownAction, db)

end AdminPanel

/-! ## Conversation state machine (src/handlers.py) -/

namespace Handlers

/-- The aiogram FSM state tags of `UserStates` that the message/callback
handlers actually set or test. -/
inductive ConvTag where
  | idle
  | waiting_for_name
  | waiting_for_location
  | waiting_for_custom_location
  | waiting_for_initial_status
  | waiting_for_danger_confirmation
  | waiting_for_filter_input
deriving Repr, DecidableEq

/-- The FSM payload fields written via `state.update_data`. -/
structure StateData where
  user_name : Option String
  is_registration : Bool
  danger_action : Option String
  text_confirmed : Bool
  filter_type : Option String
deriving Repr, DecidableEq

/-- Fresh payload (aiogram data starts empty; `get` of a missing key is
None/False). -/
def StateData.empty : StateData := ⟨none, false, none, false, none⟩

/-- One user's conversation state: tag + payload.  `state.finish()` resets
both; `set_state` keeps the payload. -/
structure Session where
  tag : ConvTag
  data : StateData
deriving Repr, DecidableEq

/-- The state after `state.finish()`. -/
def Session.idle : Session := ⟨.idle, .empty⟩

/-- Response of `handle_name_input`. -/
inductive NameResp where
  /-- "✅ Регистрация почти завершена" + initial-status keyboard. -/
  | advanced (name : String)
  /-- "❌ Ошибка регистрации". -/
  | regError
deriving Repr, DecidableEq

/-- `handle_name_input` (reached from `handle_text_message` in state
`waiting_for_name`): calls `db.add_user` directly on the given text — the
imported `validate_full_name` is never invoked — and on success stores the
name in the payload and advances to `waiting_for_initial_status`. -/
def handle_name_input (db : DB) (session : Session) (user_id : Int)
    (username : Option String) (name : String) : DB × Session × NameResp :=
  let r := Database.add_user db user_id name none username
  if r.2 then
    (r.1,
     ⟨.waiting_for_initial_status, { session.data with user_name := some name }⟩,
     .advanced name)
  else (r.1, session, .regError)

/-- Response of `handle_custom_location_input`. -/
inductive LocResp where
  /-- "❌ Локация слишком короткая. Минимум 4 символа." -/
  | tooShort
  /-- "❌ Используйте только кириллицу для названия локации." -/
  | badChars
  /-- "❌ Ошибка: имя пользователя не найдено". -/
  | nameMissing
  /-- "❌ Вы не зарегистрированы". -/
  | notRegistered
  /-- "❌ Ошибка установки статуса / регистрации убытия". -/
  | statusError
  /-- "🎉 Регистрация завершена!" (registration branch). -/
  | registered (name location : String)
  /-- "❌ Убытие зарегистрировано!" (departure branch). -/
  | departed (name location : String)
deriving Repr, DecidableEq

/-- `handle_custom_location_input` (reached from `handle_text_message` in state
`waiting_for_custom_location`): length ≥ 4 and
`re.match(r'^[А-Яа-яёЁ\s\-]+$', ...)` (equivalently: every character in the
class, the string being non-empty by the length check); a failed check answers
an error and returns without touching the DB or the FSM state.  On success the
`is_registration` payload flag picks the registration or the departure branch. -/
def handle_custom_location_input (db : DB) (session : Session) (user_id : Int)
    (location : String) : DB × Session × LocResp :=
  if location.length < 4 then (db, session, .tooShort)
  else if !(location.toList.all isLocChar) then (db, session, .badChars)
  else if session.data.is_registration then
    match session.data.user_name with
    | none => (db, session, .nameMissing)
    | some user_name =>
      let r := Database.set_soldier_status db user_id "вне_части" (some location)
      if r.2 then (r.1, Session.idle, .registered user_name location)
      else (r.1, session, .statusError)
  else
    match Database.get_soldier_status db user_id with
    | none => (db, session, .notRegistered)
    | some st =>
      let r := Database.mark_soldier_departure db user_id location
      if r.2 then (r.1, Session.idle, .departed st.name location)
      else (r.1, session, .statusError)

/-- Response of `handle_arrival_callback`. -/
inductive ArrResp where
  /-- "❌ Вы не зарегистрированы". -/
  | notRegistered
  /-- The "already in unit" creative notice (no event written). -/
  | alreadyInUnit
  /-- "✅ Прибытие зарегистрировано!". -/
  | arrived (name : String)
  /-- "❌ Ошибка регистрации". -/
  | arrError
deriving Repr, DecidableEq

/-- `handle_arrival_callback` (`user:arrived`): short-circuits with a notice
when the soldier is already `в_части`, otherwise `mark_soldier_arrival`. -/
def handle_arrival_callback (db : DB) (user_id : Int) : DB × ArrResp :=
  match Database.get_soldier_status db user_id with
  | none => (db, .notRegistered)
  | some st =>
    if st.status == "в_части" then (db, .alreadyInUnit)
    else
      let r := Database.mark_soldier_arrival db user_id
      if r.2 then (r.1, .arrived st.name) else (r.1, .arrError)

/-- Response of `handle_danger_confirmation_input`. -/
inductive DangerTextResp where
  /-- "⚠️ ВНИМАНИЕ! ..." + the confirm/cancel button keyboard. -/
  | buttonPrompt
  /-- "❌ Операция отменена" (wrong text). -/
  | txtCancelled
deriving Repr, DecidableEq

/-- `handle_danger_confirmation_input` (text typed in state
`waiting_for_danger_confirmation`): `text.strip().lower() == 'да'` keeps the
state, records `text_confirmed=True` and shows the confirmation buttons;
anything else answers a cancellation and `state.finish()`es back to idle. -/
def handle_danger_confirmation_input (session : Session) (text : String) :
    Session × DangerTextResp :=
  if pyLower (pyStrip text) == "да" then
    (⟨session.tag, { session.data with text_confirmed := true }⟩, .buttonPrompt)
  else (Session.idle, .txtCancelled)

/-- Response of `handle_admin_callback` (the handlers.py admin dispatcher). -/
inductive HandlerResp where
  /-- Delegated to `AdminPanel.handle_callback`. -/
  | admin (r : AdminPanel.AdminResp)
  /-- "🔍 Фильтр журнала ... Введите ..." prompt. -/
  | filterPrompt (filter_type : String)
  /-- "⚠️ ОПАСНАЯ ОПЕРАЦИЯ ... введите текст: Да" prompt. -/
  | dangerPrompt (danger_action : String)
  /-- The post-execution message of the confirmed dangerous operation. -/
  | dangerExecuted
  /-- "❌ Операция отменена" (button path). -/
  | dangerCancelled
  /-- "❌ Произошла ошибка" (exception caught at the handler boundary). -/
  | errored
deriving Repr, DecidableEq

/-- Result of one dispatch through `handle_admin_callback`: new DB, new
conversation state, response, and the list of dangerous AdminPanel operations
invoked (instrumentation recording the `clear_all_data` / `reset_settings` /
`mark_all_arrived` calls of the `confirm_text` branch). -/
structure DispatchResult where
  db : DB
  session : Session
  resp : HandlerResp
  ops : List String
deriving Repr, DecidableEq

/-- The `dangerous_actions` list of handlers.py. -/
def dangerous_actions : List String :=
  ["danger_zone:clear_all_data", "danger_zone:reset_settings",
   "danger_zone:mark_all_arrived"]

/-- The `action_names` mapping of handlers.py. -/
def action_names (subaction : String) : String :=
  if subaction == "clear_all_data" then "Очистка всех данных"
  else if subaction == "reset_settings" then "Сброс настроек"
  else if subaction == "mark_all_arrived" then "Отметка всех прибывшими"
  else "Неизвестная операция"

/-- `handle_admin_callback` (handlers.py): splits the raw `admin:...` string on
every colon into `(action, subaction)` = parts 1 and 2.  Three special cases
run BEFORE any admin check: the journal-filter input prompt, the
dangerous-operation confirmation prompt (both request FSM transitions), and
the `confirm_text` button of the double-confirmation flow (which executes the
pending dangerous operation when `text_confirmed` is set).  Everything else is
delegated — with the full raw string — to `AdminPanel.handle_callback`, which
is where the admin check lives. -/
def handle_admin_callback (adminIds : List Int) (db : DB) (session : Session)
    (data : String) (user_id : Int) : DispatchResult :=
  let parts := splitChar ':' data
  let action := parts.getD 1 ""
  let subaction := parts.getD 2 ""
  if action == "journal_filter" && (subaction == "by_name" || subaction == "by_action") then
    ⟨db,
     ⟨.waiting_for_filter_input, { session.data with filter_type := some subaction }⟩,
     .filterPrompt subaction, []⟩
  else if dangerous_actions.contains (action ++ ":" ++ subaction) then
    ⟨db,
     ⟨.waiting_for_danger_confirmation,
      { session.data with danger_action := some (action_names subaction) }⟩,
     .dangerPrompt (action_names subaction), []⟩
  else if action == "confirm_text" then
    if subaction == "yes" && session.data.text_confirmed then
      match session.data.danger_action with
      | none =>
        -- `"..." in None` raises TypeError; caught by the handler's except
        -- clause, which answers an error and leaves the state alone.
        ⟨db, session, .errored, []⟩
      | some da =>
        if pyIn "Очистка всех данных" da then
          ⟨(AdminPanel.clear_all_data db).1, Session.idle, .dangerExecuted,
           ["clear_all_data"]⟩
        else if pyIn "Сброс настроек" da then
          ⟨(AdminPanel.reset_settings db).1, Session.idle, .dangerExecuted,
           ["reset_settings"]⟩
        else if pyIn "Отметка всех прибывшими" da then
          ⟨(AdminPanel.mark_all_arrived db "основная локация").1, Session.idle,
           .dangerExecuted, ["mark_all_arrived"]⟩
        else ⟨db, Session.idle, .dangerExecuted, []⟩
    else ⟨db, Session.idle, .dangerCancelled, []⟩
  else
    let r := AdminPanel.handle_callback adminIds db data user_id
    ⟨r.2, session, .admin r.1, []⟩

end Handlers

/-! ## Concrete fixtures -/

/-- Empty database (fresh `init`). -/
def dbEmpty : DB := ⟨[], [], [], [], 1, 0⟩

/-- A registered soldier currently in the unit. -/
def userIvanov : UserRow := ⟨1, 5, "Иванов И.И.", none, "в_части", none, false⟩

/-- Database holding exactly `userIvanov`. -/
def dbOne : DB := ⟨[userIvanov], [], [], [], 2, 0⟩

/-- A registered soldier currently away at "Штаб". -/
def userAway : UserRow := ⟨1, 5, "Иванов И.И.", some "Штаб", "вне_части", none, false⟩

/-- Database holding exactly `userAway`. -/
def dbAway : DB := ⟨[userAway], [], [], [], 2, 0⟩

/-- Database with twenty non-admin soldiers (for the pagination scenario). -/
def db20 : DB :=
  ⟨(List.range 20).map
    (fun i => ⟨i + 1, Int.ofNat (100 + i), "Боец", none, "в_части", none, false⟩),
   [], [], [], 21, 0⟩

/-! ## Shared lemmas -/

/-- A status/location update keeps every other user intact and rewrites the
looked-up row: `find?` after the `set_soldier_status` map. -/
theorem find?_update_users (users : List UserRow) (tid : Int) (s : String)
    (l : Option String) (u : UserRow)
    (hu : users.find? (fun v => v.telegram_id == tid) = some u) :
    (users.map (fun v => if v.telegram_id == tid
        then { v with status := s, location := l } else v)).find?
        (fun v => v.telegram_id == tid)
      = some { u with status := s, location := l } := by
  rw [List.find?_map]
  have hp : ((fun v : UserRow => v.telegram_id == tid) ∘
      (fun v : UserRow => if v.telegram_id == tid
        then { v with status := s, location := l } else v))
      = fun v : UserRow => v.telegram_id == tid := by
    funext v
    by_cases h : v.telegram_id = tid <;> simp [h]
  rw [hp, hu]
  have htid := List.find?_some hu
  simp only [Option.map_some']
  simp [htid]

/-- `get_user` after a successful `set_soldier_status` sees the new status and
location. -/
theorem get_user_set_soldier_status (db : DB) (tid : Int) (s : String)
    (l : Option String) (u : UserRow)
    (hu : Database.get_user db tid = some u) :
    Database.get_user (Database.set_soldier_status db tid s l).1 tid
      = some { u with status := s, location := l } := by
  unfold Database.set_soldier_status
  rw [hu]
  simpa [Database.get_user, Database.log_event] using
    find?_update_users db.users tid s l u hu

/-- `set_soldier_status` on an existing user appends exactly one event. -/
theorem events_set_soldier_status (db : DB) (tid : Int) (s : String)
    (l : Option String) (u : UserRow)
    (hu : Database.get_user db tid = some u) :
    ((Database.set_soldier_status db tid s l).1).events.length
      = db.events.length + 1 := by
  unfold Database.set_soldier_status
  rw [hu]
  simp [Database.log_event]

/-! ## Claims -/

/-- C10: `AdminPanel.clear_events` and `AdminPanel.clear_all_data` mutate
nothing except appending one Event describing the clear: every prior user,
attendance, permission and event row is unchanged and still present, and the
only state difference is the single appended Event. -/
theorem clear_operations_are_log_only (db : DB) (period : String) :
    (AdminPanel.clear_events db period).1.users = db.users ∧
    (AdminPanel.clear_events db period).1.attendance = db.attendance ∧
    (AdminPanel.clear_events db period).1.permissions = db.permissions ∧
    (AdminPanel.clear_events db period).1.events
      = db.events ++ [⟨none, "journal_cleared",
          some ("Очищен журнал за период: " ++ period)⟩] ∧
    (AdminPanel.clear_events db period).2 = 1 ∧
    (AdminPanel.clear_all_data db).1.users = db.users ∧
    (AdminPanel.clear_all_data db).1.attendance = db.attendance ∧
    (AdminPanel.clear_all_data db).1.permissions = db.permissions ∧
    (AdminPanel.clear_all_data db).1.events
      = db.events ++ [⟨none, "clear_all_data", some "Очищены все данные"⟩] ∧
    (AdminPanel.clear_all_data db).2 = true := by
  refine ⟨rfl, rfl, rfl, rfl, rfl, rfl, rfl, rfl, rfl, rfl⟩

/-- C9: `add_user` on an already-registered `telegram_id` succeeds (returns
True) and replaces the row: the stored name and location become the supplied
values and the status resets to the column default `'в_части'`, discarding the
previous status and location. -/
theorem add_user_replaces_existing (db : DB) (tid : Int) (u : UserRow)
    (name : String) (loc : Option String) (usr : Option String)
    (hu : Database.get_user db tid = some u) :
    (Database.add_user db tid name loc usr).2 = true ∧
    Database.get_user (Database.add_user db tid name loc usr).1 tid
      = some ⟨db.nextId, tid, name, loc, "в_части", usr, false⟩ := by
  refine ⟨rfl, ?_⟩
  unfold Database.add_user Database.get_user Database.log_event
  simp only [List.find?_append]
  have h1 : ((db.users.filter (fun v => v.telegram_id != tid)).find?
      (fun v => v.telegram_id == tid)) = none := by
    apply List.find?_eq_none.mpr
    intro x hx
    have hne := (List.mem_filter.mp hx).2
    simp at hne ⊢
    exact hne
  rw [h1]
  simp

/-- Witness for C9 at a concrete database. -/
theorem add_user_replaces_existing_witness :
    Database.get_user
        (Database.add_user dbOne 5 "Петров П.П." (some "Склад") none).1 5
      = some ⟨2, 5, "Петров П.П.", some "Склад", "в_части", none, false⟩ :=
  (add_user_replaces_existing dbOne 5 userIvanov "Петров П.П." (some "Склад")
    none (by decide)).2

/-- C5: the arrival handler is idempotent-with-notice — a registered user
already `в_части` gets the "already in this status" notice and no Event is
appended (the DB is returned untouched); starting from any other status,
`arrived` followed immediately by `arrived` appends exactly one Event in
total, the second call answering the notice. -/
theorem arrival_idempotent_with_notice :
    (∀ db tid st, Database.get_soldier_status db tid = some st →
       st.status = "в_части" →
       Handlers.handle_arrival_callback db tid = (db, .alreadyInUnit)) ∧
    (∀ db tid st, Database.get_soldier_status db tid = some st →
       st.status ≠ "в_части" →
       ((Handlers.handle_arrival_callback
           (Handlers.handle_arrival_callback db tid).1 tid).1).events.length
           = db.events.length + 1 ∧
       (Handlers.handle_arrival_callback
           (Handlers.handle_arrival_callback db tid).1 tid).2
           = .alreadyInUnit) := by
  constructor
  · intro db tid st hst hin
    unfold Handlers.handle_arrival_callback
    rw [hst]
    simp [hin]
  · intro db tid st hst hnin
    obtain ⟨u, hu, hproj⟩ :
        ∃ u, Database.get_user db tid = some u ∧
          st = ⟨u.name, u.status, u.location⟩ := by
      unfold Database.get_soldier_status at hst
      cases h : Database.get_user db tid with
      | none => rw [h] at hst; simp at hst
      | some u => rw [h] at hst; simp at hst; exact ⟨u, rfl, hst.symm⟩
    have hstatus : u.status ≠ "в_части" := by
      intro h; exact hnin (by rw [hproj, h])
    have hb : (st.status == "в_части") = false := by
      simpa using hnin
    have hok : (Database.mark_soldier_arrival db tid).2 = true := by
      unfold Database.mark_soldier_arrival Database.set_soldier_status
      rw [hu]
    have hfirst : Handlers.handle_arrival_callback db tid
        = ((Database.mark_soldier_arrival db tid).1, .arrived st.name) := by
      unfold Handlers.handle_arrival_callback
      rw [hst]
      simp [hb, hok]
    have hafter : Database.get_soldier_status
        (Database.mark_soldier_arrival db tid).1 tid
        = some ⟨u.name, "в_части", none⟩ := by
      unfold Database.get_soldier_status Database.mark_soldier_arrival
      rw [get_user_set_soldier_status db tid "в_части" none u hu]
      rfl
    have hsecond : Handlers.handle_arrival_callback
        (Database.mark_soldier_arrival db tid).1 tid
        = ((Database.mark_soldier_arrival db tid).1, .alreadyInUnit) := by
      unfold Handlers.handle_arrival_callback
      rw [hafter]
      simp
    have hev : ((Database.mark_soldier_arrival db tid).1).events.length
        = db.events.length + 1 :=
      events_set_soldier_status db tid "в_части" none u hu
    have key1 : (Handlers.handle_arrival_callback db tid).1
        = (Database.mark_soldier_arrival db tid).1 := by
      rw [hfirst]
    constructor
    · rw [key1, hsecond]
      exact hev
    · rw [key1, hsecond]

/-- Witness for C5: the in-unit notice on `dbOne`, and the double-arrival
event count starting from the away soldier of `dbAway`. -/
theorem arrival_idempotent_with_notice_witness :
    Handlers.handle_arrival_callback dbOne 5 = (dbOne, .alreadyInUnit) ∧
    ((Handlers.handle_arrival_callback
        (Handlers.handle_arrival_callback dbAway 5).1 5).1).events.length
      = dbAway.events.length + 1 :=
  ⟨arrival_idempotent_with_notice.1 dbOne 5 ⟨"Иванов И.И.", "в_части", none⟩
     (by decide) rfl,
   (arrival_idempotent_with_notice.2 dbAway 5
     ⟨"Иванов И.И.", "вне_части", some "Штаб"⟩ (by decide) (by decide)).1⟩

/-- C1 (failing input): the special-cased branches of
`Handlers.handle_admin_callback` run BEFORE the admin check that lives in
`AdminPanel.handle_callback`, so a non-admin caller (user 2, admins = [1])
sending `admin:danger_zone:clear_all_data` does not receive the fixed denial:
they get the danger-confirmation prompt and an FSM transition, and after
typing "Да" and pressing the confirm button the destructive operation runs
and appends an Event — the log is not unchanged. -/
theorem admin_namespace_authorization_bypass :
    AdminPanel.is_admin [1] 2 = false ∧
    (Handlers.handle_admin_callback [1] dbEmpty Handlers.Session.idle
        "admin:danger_zone:clear_all_data" 2).resp
      = .dangerPrompt "Очистка всех данных" ∧
    (Handlers.handle_admin_callback [1] dbEmpty Handlers.Session.idle
        "admin:danger_zone:clear_all_data" 2).resp ≠ .admin .denial ∧
    (Handlers.handle_admin_callback [1] dbEmpty Handlers.Session.idle
        "admin:danger_zone:clear_all_data" 2).session.tag
      = .waiting_for_danger_confirmation ∧
    (Handlers.handle_admin_callback [1]
        (Handlers.handle_admin_callback [1] dbEmpty Handlers.Session.idle
          "admin:danger_zone:clear_all_data" 2).db
        ((Handlers.handle_danger_confirmation_input
          (Handlers.handle_admin_callback [1] dbEmpty Handlers.Session.idle
            "admin:danger_zone:clear_all_data" 2).session "Да").1)
        "admin:confirm_text:yes" 2).ops = ["clear_all_data"] ∧
    (Handlers.handle_admin_callback [1]
        (Handlers.handle_admin_callback [1] dbEmpty Handlers.Session.idle
          "admin:danger_zone:clear_all_data" 2).db
        ((Handlers.handle_danger_confirmation_input
          (Handlers.handle_admin_callback [1] dbEmpty Handlers.Session.idle
            "admin:danger_zone:clear_all_data" 2).session "Да").1)
        "admin:confirm_text:yes" 2).db.events.length
      = dbEmpty.events.length + 1 := by
  refine ⟨rfl, rfl, by decide, rfl, rfl, rfl⟩

/-- The User invariant of the claim: `location` is non-null iff
`status == 'вне_части'`. -/
def LocStatusInv (db : DB) : Prop :=
  ∀ u ∈ db.users, u.location.isSome = (u.status == "вне_части")

/-- C2 (counterexample): `set_soldier_status` — the claim's `setStatus` — does
not enforce the invariant: applied to the in-unit soldier of `dbOne` with
status `'в_части'` and a non-null location it succeeds and leaves a user whose
location is non-null while the status is not AWAY. -/
theorem location_invariant_counterexample :
    (Database.set_soldier_status dbOne 5 "в_части" (some "Штаб")).2 = true ∧
    Database.get_user (Database.set_soldier_status dbOne 5 "в_части"
        (some "Штаб")).1 5
      = some ⟨1, 5, "Иванов И.И.", some "Штаб", "в_части", none, false⟩ ∧
    ¬ LocStatusInv (Database.set_soldier_status dbOne 5 "в_части"
        (some "Штаб")).1 := by
  refine ⟨rfl, rfl, ?_⟩
  intro h
  have := h ⟨1, 5, "Иванов И.И.", some "Штаб", "в_части", none, false⟩
    (by decide)
  simp at this

/-- C2 (amended): the invariant is preserved by the operations as the handlers
invoke them — registration's `add_user` (null location), `mark_soldier_arrival`
and `mark_soldier_departure` — while the raw `set_soldier_status` stores status
and location exactly as given and can break it (see the counterexample). -/
theorem location_invariant_preserved (db : DB) (tid : Int) (name : String)
    (usr : Option String) (loc : String) (hinv : LocStatusInv db) :
    LocStatusInv (Database.add_user db tid name none usr).1 ∧
    LocStatusInv (Database.mark_soldier_arrival db tid).1 ∧
    LocStatusInv (Database.mark_soldier_departure db tid loc).1 := by
  refine ⟨?_, ?_, ?_⟩
  · intro u hu
    unfold Database.add_user Database.log_event at hu
    simp only at hu
    rcases List.mem_append.mp hu with h | h
    · exact hinv u (List.mem_filter.mp h).1
    · simp at h
      rw [h]
      rfl
  · intro u hu
    unfold Database.mark_soldier_arrival Database.set_soldier_status at hu
    cases hg : Database.get_user db tid with
    | none => rw [hg] at hu; exact hinv u hu
    | some v =>
      rw [hg] at hu
      simp only [Database.log_event] at hu
      rcases List.mem_map.mp hu with ⟨w, hw, hwu⟩
      by_cases h : w.telegram_id = tid
      · have hb : (w.telegram_id == tid) = true := by simp [h]
        rw [← hwu]
        simp [hb]
      · have hb : (w.telegram_id == tid) = false := by simp [h]
        rw [← hwu]
        simp only [hb, Bool.false_eq_true, if_false]
        exact hinv w hw
  · intro u hu
    unfold Database.mark_soldier_departure Database.set_soldier_status at hu
    cases hg : Database.get_user db tid with
    | none => rw [hg] at hu; exact hinv u hu
    | some v =>
      rw [hg] at hu
      simp only [Database.log_event] at hu
      rcases List.mem_map.mp hu with ⟨w, hw, hwu⟩
      by_cases h : w.telegram_id = tid
      · have hb : (w.telegram_id == tid) = true := by simp [h]
        rw [← hwu]
        simp [hb]
      · have hb : (w.telegram_id == tid) = false := by simp [h]
        rw [← hwu]
        simp only [hb, Bool.false_eq_true, if_false]
        exact hinv w hw

/-- Witness for the amended C2 at the concrete `dbOne`. -/
theorem location_invariant_preserved_witness :
    LocStatusInv (Database.mark_soldier_departure dbOne 5 "Склад").1 :=
  (location_invariant_preserved dbOne 5 "Иванов И.И." none "Склад"
    (by intro u hu; fin_cases hu; rfl)).2.2

/-- C3 (counterexample): with the twenty non-admin users of `db20`, requesting
page 99 of the personnel listing does NOT fall back to page 1 — the dispatcher
parses `99` successfully and returns the (empty) page 99, a different response
from the page-1 listing. -/
theorem pagination_counterexample :
    (AdminPanel.handle_callback [1] db20 "personnel:list_users_99" 1).1
      = .usersList [] 99 3 ∧
    (AdminPanel.handle_callback [1] db20 "personnel:list_users_99" 1).1
      ≠ (AdminPanel.handle_callback [1] db20 "personnel:list_users" 1).1 := by
  exact ⟨rfl, by decide⟩

/-- C3 (amended): with 20 non-admin users and page size 8 the computed total
pages is 3; a NON-NUMERIC page suffix falls back to page 1, while numeric
out-of-range pages (0, 99) are used as-is and yield an empty slice labelled
with the requested page number; total pages is `ceil(count / 8)` with minimum
1 even on an empty set. -/
theorem pagination_behaviour :
    (∀ db page, (AdminPanel.get_users_list db page 8).2.2
        = max 1 (((db.users.filter (fun u => !u.is_admin)).length + 7) / 8)) ∧
    (AdminPanel.handle_callback [1] db20 "personnel:list_users" 1).1
      = .usersList (db20.users.take 8) 1 3 ∧
    (AdminPanel.handle_callback [1] db20 "personnel:list_users_info" 1).1
      = .usersList (db20.users.take 8) 1 3 ∧
    (AdminPanel.handle_callback [1] db20 "personnel:list_users_99" 1).1
      = .usersList [] 99 3 ∧
    (AdminPanel.handle_callback [1] db20 "personnel:list_users_0" 1).1
      = .usersList [] 0 3 ∧
    (AdminPanel.get_users_list dbEmpty 1 8).2.2 = 1 := by
  refine ⟨?_, rfl, rfl, rfl, rfl, rfl⟩
  intro db page
  show (if (db.users.filter (fun u => !u.is_admin)).length > 0
      then ((db.users.filter (fun u => !u.is_admin)).length + 8 - 1) / 8 else 1)
    = max 1 (((db.users.filter (fun u => !u.is_admin)).length + 7) / 8)
  generalize (db.users.filter (fun u => !u.is_admin)).length = n
  by_cases h : n > 0
  · rw [if_pos h]
    omega
  · rw [if_neg h]
    omega

/-- C4 (failing input): `handle_name_input` never consults
`validate_full_name` — the invalid name "123" (rejected by the validator,
which accepts the documented "Иванов И.И." format) is registered anyway: a
user row is created and the conversation advances to the initial-status
step. -/
theorem registration_accepts_invalid_name :
    validate_full_name "123" = false ∧
    validate_full_name "Иванов И.И." = true ∧
    (Database.get_user (Handlers.handle_name_input dbEmpty
        ⟨.waiting_for_name, .empty⟩ 42 none "123").1 42).isSome = true ∧
    (Handlers.handle_name_input dbEmpty ⟨.waiting_for_name, .empty⟩ 42 none
        "123").1.users.length = dbEmpty.users.length + 1 ∧
    (Handlers.handle_name_input dbEmpty ⟨.waiting_for_name, .empty⟩ 42 none
        "123").2.1.tag = .waiting_for_initial_status ∧
    (Handlers.handle_name_input dbEmpty ⟨.waiting_for_name, .empty⟩ 42 none
        "123").2.2 = .advanced "123" := by
  exact ⟨rfl, rfl, rfl, rfl, rfl, rfl⟩

/-- C7: a custom-location input shorter than 4 characters, or containing any
character outside Cyrillic letters, whitespace and hyphen, is rejected with
the validation error message, the database is untouched (no status or
location change, no event) and the conversation stays in the same
awaiting-custom-location state. -/
theorem custom_location_validation (db : DB) (session : Handlers.Session)
    (uid : Int) (loc : String)
    (htag : session.tag = .waiting_for_custom_location)
    (hbad : loc.length < 4 ∨ ¬ (loc.toList.all isLocChar = true)) :
    (Handlers.handle_custom_location_input db session uid loc).1 = db ∧
    (Handlers.handle_custom_location_input db session uid loc).2.1 = session ∧
    ((Handlers.handle_custom_location_input db session uid loc).2.2
        = .tooShort ∨
     (Handlers.handle_custom_location_input db session uid loc).2.2
        = .badChars) := by
  unfold Handlers.handle_custom_location_input
  by_cases h1 : loc.length < 4
  · rw [if_pos h1]
    exact ⟨rfl, rfl, Or.inl rfl⟩
  · rw [if_neg h1]
    have h2 := hbad.resolve_left h1
    have hb : (loc.toList.all isLocChar) = false := by
      cases h : loc.toList.all isLocChar
      · rfl
      · exact absurd h h2
    rw [hb]
    exact ⟨rfl, rfl, Or.inr rfl⟩

/-- Witness for C7: the spec's example `" Штаб123"` (contains digits) at the
awaiting-custom-location step of an empty database. -/
theorem custom_location_validation_witness :
    (Handlers.handle_custom_location_input dbEmpty
        ⟨.waiting_for_custom_location, .empty⟩ 7 " Штаб123").1 = dbEmpty ∧
    (Handlers.handle_custom_location_input dbEmpty
        ⟨.waiting_for_custom_location, .empty⟩ 7 " Штаб123").2.1
      = ⟨.waiting_for_custom_location, .empty⟩ :=
  ⟨(custom_location_validation dbEmpty ⟨.waiting_for_custom_location, .empty⟩
      7 " Штаб123" rfl (Or.inr (by decide))).1,
   (custom_location_validation dbEmpty ⟨.waiting_for_custom_location, .empty⟩
      7 " Штаб123" rfl (Or.inr (by decide))).2.1⟩

/-- Characterization of the dispatcher on the confirm button
`admin:confirm_text:yes` (the string operations on the literal reduce
definitionally). -/
theorem confirm_text_yes_dispatch (adminIds : List Int) (db : DB)
    (session : Handlers.Session) (uid : Int) :
    Handlers.handle_admin_callback adminIds db session "admin:confirm_text:yes"
        uid
      = if session.data.text_confirmed then
          match session.data.danger_action with
          | none => ⟨db, session, .errored, []⟩
          | some da =>
            if pyIn "Очистка всех данных" da then
              ⟨(AdminPanel.clear_all_data db).1, Handlers.Session.idle,
               .dangerExecuted, ["clear_all_data"]⟩
            else if pyIn "Сброс настроек" da then
              ⟨(AdminPanel.reset_settings db).1, Handlers.Session.idle,
               .dangerExecuted, ["reset_settings"]⟩
            else if pyIn "Отметка всех прибывшими" da then
              ⟨(AdminPanel.mark_all_arrived db "основная локация").1,
               Handlers.Session.idle, .dangerExecuted, ["mark_all_arrived"]⟩
            else ⟨db, Handlers.Session.idle, .dangerExecuted, []⟩
        else ⟨db, Handlers.Session.idle, .dangerCancelled, []⟩ := rfl

/-- C6: the double-confirmation contract of dangerous operations — (1) typing
anything whose normalized form is not the token `да` at step 1 finishes the
flow back to IDLE with nothing executed; (2) typing the token and then
pressing the cancel button returns to IDLE with no operation and the DB
untouched; (3) typing the token and then pressing confirm, with one of the
three pending dangerous operations, executes exactly one operation and ends at
IDLE; (4) the confirm button without the typed confirmation executes nothing,
leaves the DB untouched and ends at IDLE. -/
theorem danger_double_confirmation :
    (∀ (session : Handlers.Session) (text : String),
       pyLower (pyStrip text) ≠ "да" →
       Handlers.handle_danger_confirmation_input session text
         = (Handlers.Session.idle, .txtCancelled)) ∧
    (∀ (adminIds : List Int) (db : DB) (session : Handlers.Session) (uid : Int),
       Handlers.handle_admin_callback adminIds db
           (Handlers.handle_danger_confirmation_input session "да").1
           "admin:confirm_text:no" uid
         = ⟨db, Handlers.Session.idle, .dangerCancelled, []⟩) ∧
    (∀ (adminIds : List Int) (db : DB) (session : Handlers.Session) (uid : Int)
       (da : String),
       session.data.danger_action = some da →
       da ∈ ["Очистка всех данных", "Сброс настроек", "Отметка всех прибывшими"] →
       (Handlers.handle_admin_callback adminIds db
           (Handlers.handle_danger_confirmation_input session "да").1
           "admin:confirm_text:yes" uid).ops.length = 1 ∧
       (Handlers.handle_admin_callback adminIds db
           (Handlers.handle_danger_confirmation_input session "да").1
           "admin:confirm_text:yes" uid).session = Handlers.Session.idle) ∧
    (∀ (adminIds : List Int) (db : DB) (session : Handlers.Session) (uid : Int),
       session.data.text_confirmed = false →
       Handlers.handle_admin_callback adminIds db session
           "admin:confirm_text:yes" uid
         = ⟨db, Handlers.Session.idle, .dangerCancelled, []⟩) := by
  refine ⟨?_, ?_, ?_, ?_⟩
  · intro session text h
    have hb : (pyLower (pyStrip text) == "да") = false := by
      cases hc : pyLower (pyStrip text) == "да"
      · rfl
      · exact absurd (by simpa using hc) h
    unfold Handlers.handle_danger_confirmation_input
    rw [hb]
    rfl
  · intro adminIds db session uid
    rfl
  · intro adminIds db session uid da hda hmem
    rw [confirm_text_yes_dispatch]
    have hconf : ((Handlers.handle_danger_confirmation_input session
        "да").1).data.text_confirmed = true := rfl
    have hact : ((Handlers.handle_danger_confirmation_input session
        "да").1).data.danger_action = session.data.danger_action := rfl
    rw [hconf, hact, hda]
    simp only [if_true]
    simp only [List.mem_cons, List.not_mem_nil, or_false] at hmem
    rcases hmem with rfl | rfl | rfl
    · exact ⟨rfl, rfl⟩
    · exact ⟨rfl, rfl⟩
    · exact ⟨rfl, rfl⟩
  · intro adminIds db session uid h
    rw [confirm_text_yes_dispatch, h]
    rfl

/-- Witness for C6: a pending clear-all-data confirmation in the danger state
over the empty database; wrong text, cancel button, confirm button and
unconfirmed confirm all behave as the theorem states. -/
theorem danger_double_confirmation_witness :
    Handlers.handle_danger_confirmation_input
        ⟨.waiting_for_danger_confirmation,
         ⟨none, false, some "Очистка всех данных", false, none⟩⟩ "нет"
      = (Handlers.Session.idle, .txtCancelled) ∧
    Handlers.handle_admin_callback [1] dbEmpty
        (Handlers.handle_danger_confirmation_input
          ⟨.waiting_for_danger_confirmation,
           ⟨none, false, some "Очистка всех данных", false, none⟩⟩ "да").1
        "admin:confirm_text:no" 1
      = ⟨dbEmpty, Handlers.Session.idle, .dangerCancelled, []⟩ ∧
    (Handlers.handle_admin_callback [1] dbEmpty
        (Handlers.handle_danger_confirmation_input
          ⟨.waiting_for_danger_confirmation,
           ⟨none, false, some "Очистка всех данных", false, none⟩⟩ "да").1
        "admin:confirm_text:yes" 1).ops.length = 1 ∧
    Handlers.handle_admin_callback [1] dbEmpty Handlers.Session.idle
        "admin:confirm_text:yes" 1
      = ⟨dbEmpty, Handlers.Session.idle, .dangerCancelled, []⟩ :=
  ⟨danger_double_confirmation.1
     ⟨.waiting_for_danger_confirmation,
      ⟨none, false, some "Очистка всех данных", false, none⟩⟩ "нет" (by decide),
   danger_double_confirmation.2.1 [1] dbEmpty
     ⟨.waiting_for_danger_confirmation,
      ⟨none, false, some "Очистка всех данных", false, none⟩⟩ 1,
   (danger_double_confirmation.2.2.1 [1] dbEmpty
     ⟨.waiting_for_danger_confirmation,
      ⟨none, false, some "Очистка всех данных", false, none⟩⟩ 1
     "Очистка всех данных" rfl (by decide)).1,
   danger_double_confirmation.2.2.2 [1] dbEmpty Handlers.Session.idle 1 rfl⟩

/-- The lazy permission-row creation never touches users or events. -/
theorem create_default_permissions_frame (db : DB) (uid : Nat) :
    (Database.create_default_commander_permissions db uid).events = db.events ∧
    (Database.create_default_commander_permissions db uid).users = db.users := by
  unfold Database.create_default_commander_permissions
  by_cases h : db.permissions.any (fun p => p.user_id == uid)
  · rw [if_pos h]
    exact ⟨rfl, rfl⟩
  · rw [if_neg h]
    exact ⟨rfl, rfl⟩

/-- C8 (counterexample): an unrecognized key carrying the `can_` prefix is NOT
silently ignored — `update_commander_permissions` with
`{can_view_personnel: false, can_fly: true}` fails (the spliced SQL column
does not exist), returns False, appends no Event, and does not apply the
recognized `can_view_personnel` key either (the lazily created row keeps its
default True). -/
theorem permissions_update_counterexample :
    (Database.update_commander_permissions dbOne 5
        [("can_view_personnel", false), ("can_fly", true)]).2 = false ∧
    (Database.update_commander_permissions dbOne 5
        [("can_view_personnel", false), ("can_fly", true)]).1.events
      = dbOne.events ∧
    (Database.update_commander_permissions dbOne 5
        [("can_view_personnel", false), ("can_fly", true)]).1.permissions
      = [PermRow.mkDefault 1] ∧
    (PermRow.mkDefault 1).can_view_personnel = true := by
  exact ⟨rfl, rfl, rfl, rfl⟩

/-- C8 (amended): keys WITHOUT the `can_` prefix are silently ignored (the
update behaves as if they were absent); when at least one `can_`-prefixed key
is present and all of them are recognized capability columns the update
succeeds and appends exactly one `permissions_updated` Event; a
`can_`-prefixed key that is not a recognized column makes the whole update
fail — False, no Event, no flag applied beyond the lazily created default
row; with no `can_`-prefixed key at all nothing is applied, no Event is
appended and the call does not report success. -/
theorem permissions_update_amended (db : DB) (tid : Int) (u : UserRow)
    (ks : List (String × Bool)) (hu : Database.get_user db tid = some u) :
    (Database.update_commander_permissions db tid
        (ks.filter (fun kv => pyStartsWith kv.fst "can_"))
      = Database.update_commander_permissions db tid ks) ∧
    (ks.filter (fun kv => pyStartsWith kv.fst "can_") ≠ [] →
     (∀ kv ∈ ks.filter (fun kv => pyStartsWith kv.fst "can_"),
        Database.permColumns.contains kv.fst = true) →
     (Database.update_commander_permissions db tid ks).2 = true ∧
     (Database.update_commander_permissions db tid ks).1.events
       = db.events ++ [⟨some u.rowid, "permissions_updated",
           some "Обновлены права доступа"⟩]) ∧
    ((∃ kv ∈ ks.filter (fun kv => pyStartsWith kv.fst "can_"),
        ¬ Database.permColumns.contains kv.fst = true) →
     (Database.update_commander_permissions db tid ks).2 = false ∧
     (Database.update_commander_permissions db tid ks).1.events = db.events ∧
     (Database.update_commander_permissions db tid ks).1.permissions
       = (Database.create_default_commander_permissions db u.rowid).permissions) ∧
    (ks.filter (fun kv => pyStartsWith kv.fst "can_") = [] →
     (Database.update_commander_permissions db tid ks).2 = false ∧
     (Database.update_commander_permissions db tid ks).1.events = db.events) := by
  have hidem : (ks.filter (fun kv => pyStartsWith kv.fst "can_")).filter
      (fun kv => pyStartsWith kv.fst "can_")
      = ks.filter (fun kv => pyStartsWith kv.fst "can_") := by
    rw [List.filter_filter]
    apply List.filter_congr
    intro x _
    exact Bool.and_self _
  refine ⟨?_, ?_, ?_, ?_⟩
  · unfold Database.update_commander_permissions
    rw [hu, hidem]
  · intro hne hall
    unfold Database.update_commander_permissions
    rw [hu]
    have hemp : (ks.filter (fun kv => pyStartsWith kv.fst "can_")).isEmpty
        = false := by
      cases hc : (ks.filter (fun kv => pyStartsWith kv.fst "can_")) with
      | nil => exact absurd hc hne
      | cons a l => rfl
    have hallb : ((ks.filter (fun kv => pyStartsWith kv.fst "can_")).all
        (fun kv => Database.permColumns.contains kv.fst)) = true :=
      List.all_eq_true.mpr hall
    simp only [hemp, Bool.false_eq_true, if_false, Database.log_event,
      (create_default_permissions_frame db u.rowid).1]
    rw [hallb]
    simp
  · intro hex
    unfold Database.update_commander_permissions
    rw [hu]
    obtain ⟨kv, hkv, hnr⟩ := hex
    have hemp : (ks.filter (fun kv => pyStartsWith kv.fst "can_")).isEmpty
        = false := by
      cases hc : (ks.filter (fun kv => pyStartsWith kv.fst "can_")) with
      | nil => rw [hc] at hkv; exact absurd hkv (List.not_mem_nil kv)
      | cons a l => rfl
    have hallb : ((ks.filter (fun kv => pyStartsWith kv.fst "can_")).all
        (fun kv => Database.permColumns.contains kv.fst)) = false := by
      cases hc : (ks.filter (fun kv => pyStartsWith kv.fst "can_")).all
          (fun kv => Database.permColumns.contains kv.fst)
      · rfl
      · exact absurd (List.all_eq_true.mp hc kv hkv) hnr
    simp only [hemp, Bool.false_eq_true, if_false]
    rw [hallb]
    simp [(create_default_permissions_frame db u.rowid).1]
  · intro hnil
    unfold Database.update_commander_permissions
    rw [hu, hnil]
    exact ⟨rfl, (create_default_permissions_frame db u.rowid).1⟩

/-- Witness for the amended C8 on `dbOne`: a mixed dict with one recognized
`can_` key and one prefix-less junk key succeeds with exactly one Event. -/
theorem permissions_update_amended_witness :
    (Database.update_commander_permissions dbOne 5
        [("can_export_data", true), ("junk", true)]).2 = true ∧
    (Database.update_commander_permissions dbOne 5
        [("can_export_data", true), ("junk", true)]).1.events
      = dbOne.events ++ [⟨some 1, "permissions_updated",
          some "Обновлены права доступа"⟩] :=
  (permissions_update_amended dbOne 5 userIvanov
    [("can_export_data", true), ("junk", true)] (by decide)).2.1
    (by decide) (by decide)

end Bot336
